import Mathlib

/-!
Verification of the Return Calculation Engine of the mutual-fund-comparison
repository, against its natural-language specification.

The JavaScript sources are shallow-embedded over exact rational arithmetic
(`ℚ` in place of IEEE doubles).  Two transcendental library functions,
`Math.pow` with fractional exponents and `Math.sqrt`, have no rational
counterpart; they are modelled as explicit function parameters (`powFn`,
`sqrtFn`).  Every theorem below either holds uniformly in those parameters
or instantiates them with `ratSqrt`, which is certified exact (by an explicit
`ratSqrt q * ratSqrt q = q` conjunct) on the perfect-square inputs used.

Dates are modelled as `Date3` (year/month/day with lexicographic order),
which agrees with the JavaScript `Date` timestamp order on calendar dates.
The SIP month iteration (`setMonth(getMonth() + 1)`) is modelled as an
increment of the absolute month index with the day-of-month kept fixed;
this matches JavaScript for days 1..28 (JS normalises day overflow such as
Jan 31 -> Mar 2, which the model does not reproduce; all concrete inputs
below use days <= 28).
-/

-- Decidable equality for `Except`, used to state concrete evaluations of
-- fallible engine functions.
deriving instance DecidableEq for Except

-- The Batteries rational-number operations are sealed against unfolding;
-- open them up so that `decide` can evaluate the engine on concrete inputs.
-- This changes nothing about any definition, only proof-side reducibility.
unseal Rat.add Rat.mul Rat.inv Rat.sub

namespace MFCompare

/-- `Math.round` (round half toward positive infinity, as in ECMA-262). -/
def jsRound (q : ℚ) : ℤ := Rat.floor (q + 1/2)

/-- `parseFloat(x.toFixed(2))`: round to 2 decimals.  ECMA-262 `toFixed`
resolves a tie by choosing the larger candidate, i.e. half toward +∞,
matching `jsRound`. -/
def toFixed2 (q : ℚ) : ℚ := (jsRound (q * 100) : ℚ) / 100

/-- `parseFloat(x.toFixed(4))`: round to 4 decimals. -/
def toFixed4 (q : ℚ) : ℚ := (jsRound (q * 10000) : ℚ) / 10000

/-- `Math.round(x * 100) / 100`, used for the risk metrics output. -/
def round2 (q : ℚ) : ℚ := (jsRound (q * 100) : ℚ) / 100

/-- Kernel-evaluable binary search for the natural floor square root:
invariant `lo ^ 2 <= n`, searching `[lo, hi]`. -/
def natSqrtAux (n : ℕ) : ℕ → ℕ → ℕ → ℕ
  | 0, lo, _ => lo
  | fuel + 1, lo, hi =>
    if hi ≤ lo then lo
    else
      let mid := (lo + hi + 1) / 2
      if mid * mid ≤ n then natSqrtAux n fuel mid hi
      else natSqrtAux n fuel lo (mid - 1)

/-- Kernel-evaluable floor square root on `ℕ`. -/
def natSqrt (n : ℕ) : ℕ := natSqrtAux n n (if 1 ≤ n then 1 else 0) n

/-- A computable stand-in for `Math.sqrt`, exact on rationals that are
squares of rationals (numerator and denominator perfect squares); theorems
that depend on a square root either take the square-root function as a
parameter or certify exactness of `ratSqrt` on the concrete input used. -/
def ratSqrt (q : ℚ) : ℚ := (natSqrt q.num.toNat : ℚ) / (natSqrt q.den : ℚ)

/-- JavaScript truthiness of an optional number: `undefined`/missing and `0`
are falsy. -/
def jsTruthy : Option ℚ → Bool
  | none => false
  | some q => q != 0

/-- The SIP purchase condition `currentNavValue && comparisonNavValue`:
both monthly lookups truthy. -/
def bothTruthy (mc mp : ℕ → Option ℚ) (k : ℕ) : Bool :=
  jsTruthy (mc k) && jsTruthy (mp k)

/-- JavaScript `a || b` for an optional number `a` and default `b`. -/
def jsOr (a : Option ℚ) (b : ℚ) : ℚ :=
  match a with
  | none => b
  | some q => if q = 0 then b else q

/-- A calendar date (year, month 1..12, day 1..31). -/
structure Date3 where
  y : ℕ
  m : ℕ
  d : ℕ
  deriving DecidableEq, Repr

/-- Date order: the order of JavaScript `Date` timestamps on calendar
dates, i.e. lexicographic on (year, month, day). -/
def dateLe (a b : Date3) : Prop :=
  a.y < b.y ∨ (a.y = b.y ∧ (a.m < b.m ∨ (a.m = b.m ∧ a.d ≤ b.d)))

instance : DecidableRel dateLe := fun a b => by
  unfold dateLe; infer_instance

/-- The `YYYY-MM` month key of a date, as an absolute month index. -/
def monthKeyOf (dt : Date3) : ℕ := dt.y * 12 + (dt.m - 1)

/-- One NAV observation: `{ date, nav }`. -/
structure NavItem where
  date : Date3
  nav : ℚ
  deriving DecidableEq, Repr

/-- Order on NAV items used by `[...navData].sort((a, b) => new Date(a.date) - new Date(b.date))`. -/
def navLe (a b : NavItem) : Prop := dateLe a.date b.date

instance : DecidableRel navLe := fun a b => by
  unfold navLe; infer_instance

instance : IsTotal NavItem navLe := by
  constructor; intro a b; unfold navLe dateLe; omega

instance : IsTrans NavItem navLe := by
  constructor; intro a b c; unfold navLe dateLe; omega

/-- The JavaScript stable sort by date.  A stable sort is extensionally
unique, so Mathlib insertion sort models the engine sort exactly. -/
def sortNav (navData : List NavItem) : List NavItem := List.insertionSort navLe navData

/-- `CalculationService.findNavOnDate(navData, targetDate)` (identical in the
live and static service variants): exact date match first, then the latest
observation on or before the target in the date-sorted copy, then the
earliest available NAV (`sortedNavData[0]?.nav || null`, so a leading zero
NAV or an empty list yields `null`). -/
def findNavOnDate (navData : List NavItem) (targetDate : Date3) : Option ℚ :=
  match navData.find? (fun it => it.date = targetDate) with
  | some it => some it.nav
  | none =>
    match (sortNav navData).reverse.find? (fun it => dateLe it.date targetDate) with
    | some it => some it.nav
    | none =>
      match (sortNav navData).head? with
      | some it => if it.nav = 0 then none else some it.nav
      | none => none

/-- Result record of `calculateLumpSum`. -/
structure LumpSumResult where
  currentUnits : ℚ
  comparisonUnits : ℚ
  totalInvested : ℚ
  deriving DecidableEq, Repr

/-- `CalculationService.calculateLumpSum(currentNav, comparisonNav, amount,
investmentDate)` (identical in both service variants): units are
`amount / navOnDate` for each fund; throws when either NAV lookup is falsy. -/
def calculateLumpSum (currentNav comparisonNav : List NavItem) (amount : ℚ)
    (investmentDate : Date3) : Except String LumpSumResult :=
  match findNavOnDate currentNav investmentDate,
        findNavOnDate comparisonNav investmentDate with
  | some cv, some pv =>
    if cv = 0 ∨ pv = 0 then
      Except.error "NAV data not available for the specified investment date"
    else
      Except.ok ⟨amount / cv, amount / pv, amount⟩
  | _, _ => Except.error "NAV data not available for the specified investment date"

/-- `groupNavByMonth` of the static service variant: `grouped[monthKey]` is
set by the first item of the month and overwritten only while the stored
value is falsy (`if (!grouped[monthKey])`). -/
def groupNavByMonthStatic (navData : List NavItem) : List (ℕ × ℚ) :=
  navData.foldl
    (fun g it =>
      let key := monthKeyOf it.date
      match g.lookup key with
      | some v => if v = 0 then g.map (fun p => if p.1 = key then (key, it.nav) else p) else g
      | none => g ++ [(key, it.nav)])
    []

/-- One step of `groupNavByMonth` of the live service variant: a falsy
stored entry (absent month, or stored NAV 0) is simply overwritten
(`if (!grouped[monthKey])`); otherwise the stored NAV is replaced when the
new item's day-of-month is `<=` the day-of-month of the first list entry
whose month and NAV match the stored value (or of the new item itself when
no such entry exists). -/
def groupLiveStep (navData : List NavItem) (g : List (ℕ × ℚ)) (it : NavItem) :
    List (ℕ × ℚ) :=
  let key := monthKeyOf it.date
  match g.lookup key with
  | none => g ++ [(key, it.nav)]
  | some stored =>
    if stored = 0 then g.map (fun p => if p.1 = key then (key, it.nav) else p)
    else
      let existingDate :=
        match navData.find? (fun n => monthKeyOf n.date == key && n.nav == stored) with
        | some n => n.date
        | none => it.date
      if it.date.d ≤ existingDate.d then
        g.map (fun p => if p.1 = key then (key, it.nav) else p)
      else g

/-- `groupNavByMonth` of the live service variant. -/
def groupNavByMonthLive (navData : List NavItem) : List (ℕ × ℚ) :=
  navData.foldl (groupLiveStep navData) []

/-- A chart point pushed by the SIP loops: `{ date, current, comparison,
invested }` (`date` as absolute month index, values already `Math.round`ed). -/
structure ChartPoint where
  date : ℕ
  current : ℤ
  comparison : ℤ
  invested : ℚ
  deriving DecidableEq, Repr

/-- State/result of `calculateSIP`: `{ currentUnits, comparisonUnits,
totalInvested, chartData }`. -/
structure SipState where
  currentUnits : ℚ
  comparisonUnits : ℚ
  totalInvested : ℚ
  chartData : List ChartPoint
  deriving DecidableEq, Repr

/-- The SIP `while (current <= end)` month iteration with an explicit
structural iteration bound (the loop advances the month index by one each
pass, so `endM + 1 - m` passes always suffice). -/
def monthSeqAux (endM endD : ℕ) : ℕ → ℕ → ℕ → List ℕ
  | 0, _, _ => []
  | fuel + 1, m, d =>
    if m < endM ∨ (m = endM ∧ d ≤ endD) then m :: monthSeqAux endM endD fuel (m + 1) d
    else []

/-- The sequence of month keys visited by the SIP `while (current <= end)`
loop, iterating from month index `m` (with fixed day-of-month `d`) up to the
end date `(endM, endD)` in the lexicographic date order. -/
def monthSeq (endM endD : ℕ) (m d : ℕ) : List ℕ :=
  monthSeqAux endM endD (endM + 1 - m) m d

/-- Loop body of the live `calculateSIP`: purchase when both monthly NAVs are
truthy; the chart point values use the current month's NAV values. -/
def sipBodyLive (mc mp : ℕ → Option ℚ) (monthlyAmount : ℚ) (s : SipState) (k : ℕ) :
    SipState :=
  match mc k, mp k with
  | some cv, some pv =>
    if cv = 0 ∨ pv = 0 then s
    else
      let cu := s.currentUnits + monthlyAmount / cv
      let pu := s.comparisonUnits + monthlyAmount / pv
      let ti := s.totalInvested + monthlyAmount
      ⟨cu, pu, ti, s.chartData ++ [⟨k, jsRound (cu * cv), jsRound (pu * pv), ti⟩]⟩
  | _, _ => s

/-- Loop body of the static `calculateSIP`: identical purchases, but the
chart point values use `navData[navData.length - 1]?.nav || navValue`
(the latest NAV of each series, falling back to the month's NAV). -/
def sipBodyStatic (mc mp : ℕ → Option ℚ) (lastC lastP : Option ℚ)
    (monthlyAmount : ℚ) (s : SipState) (k : ℕ) : SipState :=
  match mc k, mp k with
  | some cv, some pv =>
    if cv = 0 ∨ pv = 0 then s
    else
      let cu := s.currentUnits + monthlyAmount / cv
      let pu := s.comparisonUnits + monthlyAmount / pv
      let ti := s.totalInvested + monthlyAmount
      ⟨cu, pu, ti,
        s.chartData ++ [⟨k, jsRound (cu * jsOr lastC cv), jsRound (pu * jsOr lastP pv), ti⟩]⟩
  | _, _ => s

/-- The live SIP month loop over a given month-key sequence. -/
def sipLoopLive (mc mp : ℕ → Option ℚ) (monthlyAmount : ℚ) (months : List ℕ) :
    SipState :=
  months.foldl (sipBodyLive mc mp monthlyAmount) ⟨0, 0, 0, []⟩

/-- The static SIP month loop over a given month-key sequence. -/
def sipLoopStatic (mc mp : ℕ → Option ℚ) (lastC lastP : Option ℚ)
    (monthlyAmount : ℚ) (months : List ℕ) : SipState :=
  months.foldl (sipBodyStatic mc mp lastC lastP monthlyAmount) ⟨0, 0, 0, []⟩

/-- `CalculationService.calculateSIP` (live variant, part_011 lines 726-763):
builds the per-month NAV maps with the live `groupNavByMonth` and folds the
purchase loop over the visited months. -/
def calculateSIPLive (currentNav comparisonNav : List NavItem) (monthlyAmount : ℚ)
    (startDate endDate : Date3) : SipState :=
  sipLoopLive (fun k => (groupNavByMonthLive currentNav).lookup k)
    (fun k => (groupNavByMonthLive comparisonNav).lookup k)
    monthlyAmount
    (monthSeq (monthKeyOf endDate) endDate.d (monthKeyOf startDate) startDate.d)

/-- `CalculationService.calculateSIP` (static variant, part_011 lines
1443-1483). -/
def calculateSIPStatic (currentNav comparisonNav : List NavItem) (monthlyAmount : ℚ)
    (startDate endDate : Date3) : SipState :=
  sipLoopStatic (fun k => (groupNavByMonthStatic currentNav).lookup k)
    (fun k => (groupNavByMonthStatic comparisonNav).lookup k)
    (currentNav.getLast?.map NavItem.nav) (comparisonNav.getLast?.map NavItem.nav)
    monthlyAmount
    (monthSeq (monthKeyOf endDate) endDate.d (monthKeyOf startDate) startDate.d)

/-- One leg (`current` or `comparison`) of the comparison result. -/
structure LegResult where
  value : ℤ
  invested : ℚ
  fund : String
  units : ℚ
  latestNav : ℚ
  deriving DecidableEq, Repr

/-- `calculatePortfolioComparison` result record. -/
structure CompResult where
  current : LegResult
  comparison : LegResult
  difference : ℤ
  percentageDifference : ℚ
  chartData : List ChartPoint
  deriving DecidableEq, Repr

/-- `chartData.slice(-24)`: the most recent 24 points. -/
def lastN (n : ℕ) (l : List ChartPoint) : List ChartPoint := l.drop (l.length - n)

/-- `CalculationService.calculatePortfolioComparison` (live variant, part_011
lines 647-724).  `investmentType === 'sip'` selects the SIP loop, anything
else the lump-sum path with `startDate` as the investment date; the guard
throws when either NAV list is empty.  The JS default of `endDate` to the
current date is modelled by the caller passing that date. -/
def calculatePortfolioComparisonLive (currentName comparisonName : String)
    (currentNav comparisonNav : List NavItem) (investmentType : String)
    (amount : ℚ) (startDate endDate : Date3) : Except String CompResult :=
  if currentNav = [] ∨ comparisonNav = [] then
    Except.error "Insufficient NAV data for calculation"
  else
    (if investmentType = "sip" then
      let r := calculateSIPLive currentNav comparisonNav amount startDate endDate
      Except.ok (r.currentUnits, r.comparisonUnits, r.totalInvested, r.chartData)
    else
      (calculateLumpSum currentNav comparisonNav amount startDate).map
        (fun r => (r.currentUnits, r.comparisonUnits, r.totalInvested, []))).map
      (fun sim =>
        let currentUnits := sim.1
        let comparisonUnits := sim.2.1
        let totalInvested := sim.2.2.1
        let chartData := sim.2.2.2
        let latestCurrentNav := jsOr (currentNav.getLast?.map NavItem.nav) 0
        let latestComparisonNav := jsOr (comparisonNav.getLast?.map NavItem.nav) 0
        let currentValue := currentUnits * latestCurrentNav
        let comparisonValue := comparisonUnits * latestComparisonNav
        { current := ⟨jsRound currentValue, totalInvested, currentName,
            toFixed4 currentUnits, latestCurrentNav⟩
          comparison := ⟨jsRound comparisonValue, totalInvested, comparisonName,
            toFixed4 comparisonUnits, latestComparisonNav⟩
          difference := jsRound (comparisonValue - currentValue)
          percentageDifference :=
            if 0 < totalInvested then
              toFixed2 ((comparisonValue - currentValue) / totalInvested * 100)
            else 0
          chartData := lastN 24 chartData })

/-- `CalculationService.calculatePortfolioComparison` (static variant,
part_011 lines 1364-1441): identical except that the SIP loop is the static
one and `percentageDifference` divides by `currentValue` instead of
`totalInvested`. -/
def calculatePortfolioComparisonStatic (currentName comparisonName : String)
    (currentNav comparisonNav : List NavItem) (investmentType : String)
    (amount : ℚ) (startDate endDate : Date3) : Except String CompResult :=
  if currentNav = [] ∨ comparisonNav = [] then
    Except.error "Insufficient NAV data for calculation"
  else
    (if investmentType = "sip" then
      let r := calculateSIPStatic currentNav comparisonNav amount startDate endDate
      Except.ok (r.currentUnits, r.comparisonUnits, r.totalInvested, r.chartData)
    else
      (calculateLumpSum currentNav comparisonNav amount startDate).map
        (fun r => (r.currentUnits, r.comparisonUnits, r.totalInvested, []))).map
      (fun sim =>
        let currentUnits := sim.1
        let comparisonUnits := sim.2.1
        let totalInvested := sim.2.2.1
        let chartData := sim.2.2.2
        let latestCurrentNav := jsOr (currentNav.getLast?.map NavItem.nav) 0
        let latestComparisonNav := jsOr (comparisonNav.getLast?.map NavItem.nav) 0
        let currentValue := currentUnits * latestCurrentNav
        let comparisonValue := comparisonUnits * latestComparisonNav
        { current := ⟨jsRound currentValue, totalInvested, currentName,
            toFixed4 currentUnits, latestCurrentNav⟩
          comparison := ⟨jsRound comparisonValue, totalInvested, comparisonName,
            toFixed4 comparisonUnits, latestComparisonNav⟩
          difference := jsRound (comparisonValue - currentValue)
          percentageDifference :=
            if 0 < totalInvested then
              toFixed2 ((comparisonValue - currentValue) / currentValue * 100)
            else 0
          chartData := lastN 24 chartData })

/-- `CalculationService.calculateCAGR(initialValue, finalValue, years)`
(identical in both variants).  `Math.pow` is the explicit parameter `powFn`;
the guard returns the number `0` (not `null`). -/
def calculateCAGR (powFn : ℚ → ℚ → ℚ) (initialValue finalValue years : ℚ) : ℚ :=
  if initialValue ≤ 0 ∨ finalValue ≤ 0 ∨ years ≤ 0 then 0
  else (powFn (finalValue / initialValue) (1 / years) - 1) * 100

/-- Modelled from the spec sentence for C3 only: `cagr` "fails (returns
null)" on non-positive inputs, otherwise the closed-form value.  Compared
against the source's `calculateCAGR`. -/
def cagrSpec (powFn : ℚ → ℚ → ℚ) (totalContributed currentValue elapsedYears : ℚ) :
    Option ℚ :=
  if totalContributed ≤ 0 ∨ currentValue ≤ 0 ∨ elapsedYears ≤ 0 then none
  else some ((powFn (currentValue / totalContributed) (1 / elapsedYears) - 1) * 100)

/-- `NPV(rate)` of the XIRR loop: dates are JavaScript timestamps in
milliseconds, `daysDiff = (dates[j] - dates[0]) / 86400000`,
`yearsDiff = daysDiff / 365`, `npv += cf / powFn (1 + rate) yearsDiff`. -/
def npvAt (powFn : ℚ → ℚ → ℚ) (cashFlows dates : List ℚ) (rate : ℚ) : ℚ :=
  (cashFlows.zip dates).foldl
    (fun acc cd =>
      acc + cd.1 / powFn (1 + rate) (((cd.2 - dates.headD 0) / 86400000) / 365))
    0

/-- The derivative accumulator of the XIRR loop:
`dnpv -= cf * yearsDiff / factor / (1 + rate)`. -/
def dnpvAt (powFn : ℚ → ℚ → ℚ) (cashFlows dates : List ℚ) (rate : ℚ) : ℚ :=
  (cashFlows.zip dates).foldl
    (fun acc cd =>
      let yearsDiff := ((cd.2 - dates.headD 0) / 86400000) / 365
      acc - cd.1 * yearsDiff / powFn (1 + rate) yearsDiff / (1 + rate))
    0

/-- The XIRR Newton iteration with remaining-iteration fuel: return
`rate * 100` on convergence (`|npv| < 0.0001`) or when the fuel is spent,
else update `rate -= npv / dnpv`. -/
def xirrGo (powFn : ℚ → ℚ → ℚ) (cashFlows dates : List ℚ) : ℕ → ℚ → ℚ
  | 0, rate => rate * 100
  | fuel + 1, rate =>
    if |npvAt powFn cashFlows dates rate| < 1/10000 then rate * 100
    else
      xirrGo powFn cashFlows dates fuel
        (rate - npvAt powFn cashFlows dates rate / dnpvAt powFn cashFlows dates rate)

/-- `CalculationService.calculateXIRR(cashFlows, dates)` (verbatim identical
in both service variants): guard mismatched lengths and fewer than two cash
flows to `0`, else 100 Newton iterations from the initial guess `0.1`. -/
def calculateXIRR (powFn : ℚ → ℚ → ℚ) (cashFlows dates : List ℚ) : ℚ :=
  if cashFlows.length ≠ dates.length ∨ cashFlows.length < 2 then 0
  else xirrGo powFn cashFlows dates 100 (1/10)

/-- Modelled from the spec sentences for C1: the Newton–Raphson rate
sequence `r_0 = 0.10`, `r_(k+1) = r_k - NPV(r_k) / NPV'(r_k)`. -/
def newtonSeq (powFn : ℚ → ℚ → ℚ) (cashFlows dates : List ℚ) : ℕ → ℚ
  | 0 => 1/10
  | k + 1 =>
    let r := newtonSeq powFn cashFlows dates k
    r - npvAt powFn cashFlows dates r / dnpvAt powFn cashFlows dates r

/-- Modelled from the spec sentences for C1: return `r_k * 100` for the
first `k < 100` with `|NPV(r_k)| < 1e-4`, and after the hard cap of 100
iterations the last computed rate `r_100 * 100`. -/
def xirrSpec (powFn : ℚ → ℚ → ℚ) (cashFlows dates : List ℚ) : ℚ :=
  match (List.range 100).find?
      (fun k => decide (|npvAt powFn cashFlows dates (newtonSeq powFn cashFlows dates k)| < 1/10000)) with
  | some k => newtonSeq powFn cashFlows dates k * 100
  | none => newtonSeq powFn cashFlows dates 100 * 100

/-- `getBestPerformer(fund1Value, fund2Value, indexValue)` (part_004 lines
142-156).  A falsy `indexValue` (absent benchmark or value `0`) selects the
two-way branch `fund1Value > fund2Value ? 'fund1' : 'fund2'`; otherwise the
three-element `reduce` keeps the earlier entry on ties and replaces only on
a strictly larger value. -/
def getBestPerformer (fund1Value fund2Value : ℚ) (indexValue : Option ℚ) : String :=
  if jsTruthy indexValue = false then
    if fund1Value > fund2Value then "fund1" else "fund2"
  else
    let v := indexValue.getD 0
    let best1 := if fund2Value > fund1Value then ("fund2", fund2Value) else ("fund1", fund1Value)
    let best2 := if v > best1.2 then ("index", v) else best1
    best2.1

/-- A portfolio entry as consumed by the risk estimator:
`{ category, totalInvested, annualizedReturn }`. -/
structure Fund where
  category : String
  totalInvested : ℚ
  annualizedReturn : ℚ
  deriving DecidableEq, Repr

/-- `getBenchmarkForCategory(category)` (part_011 lines 634-644), default
`'nifty50'`. -/
def getBenchmarkForCategory (category : String) : String :=
  if category = "Large Cap" then "nifty50"
  else if category = "Mid Cap" then "niftymidcap"
  else if category = "Small Cap" then "niftysmallcap"
  else if category = "IT" then "niftyit"
  else if category = "Bank" then "niftybank"
  else if category = "Index" then "nifty50"
  else "nifty50"

/-- `mapRiskScoreToLevel(riskScore)` (part_011 lines 593-598). -/
def mapRiskScoreToLevel (riskScore : ℚ) : String :=
  if riskScore ≤ 2 then "Low"
  else if riskScore ≤ 4 then "Moderate"
  else if riskScore ≤ 6 then "High"
  else "Very High"

/-- `getRiskFreeRate()` (part_011 lines 579-590): the fetched 10-year bond
yield when truthy, else the hardcoded `6.5`; a failed fetch (modelled as
`none`) also yields `6.5`, so this function never throws. -/
def getRiskFreeRate (bondYield : Option ℚ) : ℚ := jsOr bondYield (13/2)

/-- The benchmark-volatility lookup `indexDataService.getIndexHistoricalData
(index, '1y').metrics.volatility`, an external collaborator: `none` models
both a failed fetch and a missing metric. -/
abbrev VolLookup := String → Option ℚ

/-- `categoryBenchmarks[category]` of `getRiskScoreByCategory` (part_011
lines 1237-1249); `'Debt'` maps to `null` and unknown categories to
`undefined`, both falsy. -/
def categoryBenchmarks (category : String) : Option String :=
  if category = "Large Cap" then some "nifty50"
  else if category = "Mid Cap" then some "niftymidcap"
  else if category = "Small Cap" then some "niftysmallcap"
  else if category = "Flexi Cap" then some "nifty500"
  else if category = "Index" then some "nifty50"
  else if category = "Debt" then none
  else if category = "Hybrid" then some "nifty50"
  else if category = "ELSS" then some "nifty50"
  else if category = "Sectoral/Thematic" then some "nifty500"
  else if category = "Banking" then some "niftybank"
  else if category = "IT" then some "niftyit"
  else none

/-- `category.toLowerCase().includes(sub)`: `sub` occurs in the lowercased
string iff `splitOn` produces more than one fragment. -/
def lowerIncludes (s sub : String) : Bool := (s.toLower.splitOn sub).length != 1

/-- `categoryAdjustments[category] || 0` of `getRiskScoreByCategory`
(part_011 lines 1289-1302). -/
def categoryAdjustments (category : String) : ℚ :=
  if category = "Large Cap" then 0
  else if category = "Mid Cap" then 1
  else if category = "Small Cap" then 2
  else if category = "Flexi Cap" then 1/2
  else if category = "Index" then -(1/2)
  else if category = "Hybrid" then -1
  else if category = "ELSS" then 1/2
  else if category = "Sectoral/Thematic" then 3/2
  else if category = "Banking" then 1/2
  else if category = "IT" then 1/2
  else 0

/-- `getRiskScoreByCategory(category)` (part_011 lines 1234-1314):
categories without a benchmark get a fixed score (1 for debt/bond, else 3);
otherwise the benchmark volatility is banded piecewise-linearly into a
1-10 score, adjusted per category and clamped; a missing or falsy
volatility throws. -/
def getRiskScoreByCategory (lookup : VolLookup) (category : String) :
    Except String ℚ :=
  match categoryBenchmarks category with
  | none =>
    if lowerIncludes category "debt" || lowerIncludes category "bond" then
      Except.ok 1
    else Except.ok 3
  | some benchmarkIndex =>
    match lookup benchmarkIndex with
    | none => Except.error ("Unable to calculate risk score for category " ++ category)
    | some volatility =>
      if volatility = 0 then
        Except.error ("Unable to calculate risk score for category " ++ category)
      else
        let riskScore :=
          if volatility < 10 then 1 + volatility / 10
          else if volatility < 20 then 2 + (volatility - 10) / 10 * 2
          else if volatility < 30 then 4 + (volatility - 20) / 10 * 2
          else min 10 (6 + (volatility - 30) / 10 * 4)
        Except.ok (max 1 (min 10 (riskScore + categoryAdjustments category)))

/-- The summation loop of `calculatePortfolioVolatility` (part_011 lines
601-631): accumulate `weight^2 * volatility^2` per fund, where the category
benchmark volatility is fetched per fund; a failed fetch or a falsy
volatility rethrows out of the whole computation. -/
def portfolioVolSum (lookup : VolLookup) (total : ℚ) :
    List Fund → ℚ → Except String ℚ
  | [], acc => Except.ok acc
  | f :: rest, acc =>
    let fundCategory := if f.category = "" then "Unknown" else f.category
    match lookup (getBenchmarkForCategory fundCategory) with
    | none => Except.error ("Unable to calculate real volatility for category " ++ fundCategory)
    | some fundVolatility =>
      if fundVolatility = 0 then
        Except.error ("Unable to calculate real volatility for category " ++ fundCategory)
      else
        portfolioVolSum lookup total rest
          (acc + (f.totalInvested / total) * (f.totalInvested / total)
            * fundVolatility * fundVolatility)

/-- `calculatePortfolioVolatility(funds)`: `Math.sqrt` of the accumulated
weighted variance, with `Math.sqrt` as the explicit parameter `sqrtFn`. -/
def calculatePortfolioVolatility (sqrtFn : ℚ → ℚ) (lookup : VolLookup)
    (funds : List Fund) : Except String ℚ :=
  (portfolioVolSum lookup (funds.foldl (fun acc f => acc + f.totalInvested) 0)
    funds 0).map sqrtFn

/-- The weighted-risk loop of the dynamic path of `calculatePortfolioRisk`
(part_011 lines 1046-1053): `weightedRisk += riskScore * weight`, erroring
as soon as one category risk score cannot be computed. -/
def dynWeightedRisk (lookup : VolLookup) (total : ℚ) :
    List Fund → ℚ → Except String ℚ
  | [], acc => Except.ok acc
  | f :: rest, acc =>
    match getRiskScoreByCategory lookup f.category with
    | Except.error e => Except.error e
    | Except.ok fundRisk =>
      dynWeightedRisk lookup total rest (acc + fundRisk * (f.totalInvested / total))

/-- `riskScores[fund.category] || 3` of the static fallback branch. -/
def staticRiskScore (category : String) : ℚ :=
  if category = "Large Cap" then 2
  else if category = "Mid Cap" then 4
  else if category = "Small Cap" then 6
  else if category = "Debt" then 1
  else if category = "Hybrid" then 3
  else if category = "Index" then 2
  else if category = "ELSS" then 4
  else if category = "Sectoral/Thematic" then 7
  else 3

/-- Risk metrics record returned by `calculatePortfolioRisk`: every field is
a plain number; in particular `sharpeRatio` is never `null`. -/
structure RiskResult where
  riskLevel : String
  riskScore : ℚ
  volatility : ℚ
  sharpeRatio : ℚ
  deriving DecidableEq, Repr

/-- The `catch` branch of `calculatePortfolioRisk` (part_011 lines
1070-1105): static per-category risk scores, volatility approximated as
`Math.sqrt(weightedRisk) * 5`, and a Sharpe ratio computed from them. -/
def staticPortfolioRisk (sqrtFn : ℚ → ℚ) (bondYield : Option ℚ)
    (funds : List Fund) : RiskResult :=
  let total := funds.foldl (fun acc f => acc + f.totalInvested) 0
  let weightedRisk :=
    funds.foldl (fun acc f => acc + staticRiskScore f.category * (f.totalInvested / total)) 0
  let avgReturn := (funds.foldl (fun acc f => acc + f.annualizedReturn) 0) / (funds.length : ℚ)
  let riskFreeRate := getRiskFreeRate bondYield
  let volatility := sqrtFn weightedRisk * 5
  let sharpeRatio := (avgReturn - riskFreeRate) / volatility
  ⟨mapRiskScoreToLevel weightedRisk, round2 weightedRisk, round2 volatility,
    round2 sharpeRatio⟩

/-- `calculatePortfolioRisk(funds)` (part_011 lines 1044-1106): the dynamic
path computes capital-weighted benchmark-derived risk scores and volatility
and divides for the Sharpe ratio with no zero-volatility guard; any error in
the dynamic path is caught and answered with the static fallback, so this
function always returns a `RiskResult` and never propagates an error. -/
def calculatePortfolioRisk (sqrtFn : ℚ → ℚ) (lookup : VolLookup)
    (bondYield : Option ℚ) (funds : List Fund) : RiskResult :=
  let total := funds.foldl (fun acc f => acc + f.totalInvested) 0
  match dynWeightedRisk lookup total funds 0,
        calculatePortfolioVolatility sqrtFn lookup funds with
  | Except.ok weightedRisk, Except.ok volatility =>
    let avgReturn := (funds.foldl (fun acc f => acc + f.annualizedReturn) 0) / (funds.length : ℚ)
    let riskFreeRate := getRiskFreeRate bondYield
    let sharpeRatio := (avgReturn - riskFreeRate) / volatility
    ⟨mapRiskScoreToLevel weightedRisk, round2 weightedRisk, round2 volatility,
      round2 sharpeRatio⟩
  | _, _ => staticPortfolioRisk sqrtFn bondYield funds

/-! ### Helper lemmas -/

/-- `natSqrtAux` never returns less than its lower bound. -/
theorem natSqrtAux_ge_lo (n : ℕ) :
    ∀ (fuel lo hi : ℕ), lo ≤ natSqrtAux n fuel lo hi := by
  intro fuel
  induction fuel with
  | zero => intro lo hi; simp [natSqrtAux]
  | succ fuel ih =>
    intro lo hi
    simp only [natSqrtAux]
    split
    · exact le_refl lo
    · split
      · exact le_trans (by omega) (ih ((lo + hi + 1) / 2) hi)
      · exact ih lo ((lo + hi + 1) / 2 - 1)

/-- `ratSqrt` is positive on positive rationals (its numerator and
denominator floor square roots are at least 1). -/
theorem ratSqrt_pos (q : ℚ) (hq : 0 < q) : 0 < ratSqrt q := by
  have hnum : 1 ≤ q.num.toNat := by
    have := Rat.num_pos.mpr hq
    omega
  have hden : 1 ≤ q.den := q.pos
  have h1 : 1 ≤ natSqrt q.num.toNat := by
    unfold natSqrt
    have : (if 1 ≤ q.num.toNat then 1 else 0) = 1 := by simp [hnum]
    rw [this]
    exact natSqrtAux_ge_lo _ _ _ _
  have h2 : 1 ≤ natSqrt q.den := by
    unfold natSqrt
    have : (if 1 ≤ q.den then 1 else 0) = 1 := by simp [hden]
    rw [this]
    exact natSqrtAux_ge_lo _ _ _ _
  unfold ratSqrt
  have hA : (0 : ℚ) < (natSqrt q.num.toNat : ℚ) := by
    have : 0 < natSqrt q.num.toNat := by omega
    exact_mod_cast this
  have hB : (0 : ℚ) < (natSqrt q.den : ℚ) := by
    have : 0 < natSqrt q.den := by omega
    exact_mod_cast this
  exact div_pos hA hB


/-- `dateLe` is reflexive. -/
theorem dateLe_refl (a : Date3) : dateLe a a := by
  unfold dateLe; omega

/-- A SIP loop body skips a month whose NAV pair is not both truthy. -/
theorem sipBodyLive_skip (mc mp : ℕ → Option ℚ) (amt : ℚ) (s : SipState) (k : ℕ)
    (h : jsTruthy (mc k) = false ∨ jsTruthy (mp k) = false) :
    sipBodyLive mc mp amt s k = s := by
  unfold sipBodyLive
  cases hc : mc k with
  | none => rfl
  | some cv =>
    cases hp : mp k with
    | none => rfl
    | some pv =>
      rw [hc, hp] at h
      simp only [jsTruthy, bne_eq_false_iff_eq] at h
      simp [h]

/-- A truthy optional value is a nonzero `some`. -/
theorem jsTruthy_eq_true_iff (o : Option ℚ) :
    jsTruthy o = true ↔ ∃ v, o = some v ∧ v ≠ 0 := by
  cases o with
  | none => simp [jsTruthy]
  | some v => simp [jsTruthy]

/-! ### C3 -/

/-- C3 counterexample: on `totalContributed = -1 <= 0` the code returns the
number `0`, while the claim requires the failure value `null` (modelled by
`cagrSpec` returning `none`). -/
theorem calculateCAGR_nonpositive_returns_zero_not_null :
    calculateCAGR (fun b _ => b) (-1) 100 1 = 0 ∧
    cagrSpec (fun b _ => b) (-1) 100 1 = none :=
  ⟨by decide, by decide⟩

/-- C3 amended: `calculateCAGR` returns `0` (not `null`) when
`totalContributed <= 0`, `currentValue <= 0` or `elapsedYears <= 0`, and
otherwise `((currentValue / totalContributed) ^ (1 / elapsedYears) - 1) * 100`;
i.e. it equals the spec contract with the `null` failure collapsed to `0`. -/
theorem calculateCAGR_eq_cagrSpec_getD_zero (powFn : ℚ → ℚ → ℚ)
    (totalContributed currentValue elapsedYears : ℚ) :
    calculateCAGR powFn totalContributed currentValue elapsedYears
      = (cagrSpec powFn totalContributed currentValue elapsedYears).getD 0 := by
  unfold calculateCAGR cagrSpec
  split <;> rfl

/-! ### C4 -/

/-- C4 counterexample: with equal fund values and no benchmark present, the
code returns `'fund2'` (the comparison fund), while the claim requires the
tie to be broken toward `current` (`'fund1'`). -/
theorem getBestPerformer_tie_returns_fund2 :
    getBestPerformer 100 100 none = "fund2" ∧ "fund2" ≠ "fund1" :=
  ⟨by decide, by decide⟩

/-- C4 amended: `bestPerformer` is the arg-max over the final values of the
participants present, with ties broken toward `current` when a truthy
benchmark is present, but broken toward `comparison` in the two-way branch
(no benchmark): there `fund1` wins only strictly. -/
theorem getBestPerformer_argmax (f1 f2 : ℚ) (idx : Option ℚ) :
    (jsTruthy idx = false → f2 < f1 → getBestPerformer f1 f2 idx = "fund1") ∧
    (jsTruthy idx = false → f1 ≤ f2 → getBestPerformer f1 f2 idx = "fund2") ∧
    (∀ v : ℚ, idx = some v → v ≠ 0 →
      (f1 < v ∧ f2 < v → getBestPerformer f1 f2 idx = "index") ∧
      (f1 < f2 ∧ v ≤ f2 → getBestPerformer f1 f2 idx = "fund2") ∧
      (f2 ≤ f1 ∧ v ≤ f1 → getBestPerformer f1 f2 idx = "fund1")) := by
  refine ⟨?_, ?_, ?_⟩
  · intro hfalsy hgt
    simp only [getBestPerformer, hfalsy]
    simp [hgt]
  · intro hfalsy hle
    simp only [getBestPerformer, hfalsy]
    simp [not_lt.mpr hle]
  · intro v hv hv0
    subst hv
    have htruthy : jsTruthy (some v) = true := by simp [jsTruthy, hv0]
    constructor
    · rintro ⟨h1, h2⟩
      simp only [getBestPerformer, htruthy]
      by_cases h21 : f1 < f2 <;> simp [h21, h1, h2]
    constructor
    · rintro ⟨h21, hv2⟩
      simp only [getBestPerformer, htruthy]
      simp [h21, not_lt.mpr hv2]
    · rintro ⟨h12, hv1⟩
      simp only [getBestPerformer, htruthy]
      simp [not_lt.mpr h12, not_lt.mpr hv1]

/-- Concrete instance of `getBestPerformer_argmax`: with a strictly largest
benchmark value, the benchmark wins. -/
theorem getBestPerformer_argmax_witness : getBestPerformer 1 2 (some 3) = "index" :=
  ((getBestPerformer_argmax 1 2 (some 3)).2.2 3 rfl (by norm_num)).1 (by norm_num)

/-! ### C5 -/

/-- C5 counterexample: a SIP window in which zero months yield a price
(series data only in January 2020, window February-March 2020): the live
`calculateSIP` returns a result with zero units and zero `totalInvested`,
and `calculatePortfolioComparison` returns it as a success, instead of
failing with an `InsufficientDataError`. -/
theorem calculateSIP_zero_months_returns_zero_result :
    calculateSIPLive [⟨⟨2020,1,15⟩,10⟩] [⟨⟨2020,1,10⟩,20⟩] 5000 ⟨2020,2,1⟩ ⟨2020,3,1⟩
      = ⟨0, 0, 0, []⟩ ∧
    calculatePortfolioComparisonLive "A" "B" [⟨⟨2020,1,15⟩,10⟩] [⟨⟨2020,1,10⟩,20⟩]
      "sip" 5000 ⟨2020,2,1⟩ ⟨2020,3,1⟩
      = Except.ok ⟨⟨0, 0, "A", 0, 10⟩, ⟨0, 0, "B", 0, 20⟩, 0, 0, []⟩ :=
  ⟨by decide, by decide⟩

/-- C5 amended: when no visited month has a truthy price in both monthly
maps, the SIP loop returns the all-zero result (zero units, zero
`totalInvested`, empty chart) rather than raising any error. -/
theorem sipLoopLive_no_priced_month (mc mp : ℕ → Option ℚ) (amt : ℚ)
    (months : List ℕ)
    (h : ∀ k ∈ months, jsTruthy (mc k) = false ∨ jsTruthy (mp k) = false) :
    sipLoopLive mc mp amt months = ⟨0, 0, 0, []⟩ := by
  unfold sipLoopLive
  suffices hgen : ∀ s : SipState, months.foldl (sipBodyLive mc mp amt) s = s from
    hgen ⟨0, 0, 0, []⟩
  induction months with
  | nil => intro s; rfl
  | cons k ms ih =>
    intro s
    rw [List.foldl_cons, sipBodyLive_skip mc mp amt s k (h k (by simp))]
    exact ih (fun j hj => h j (by simp [hj])) s

/-- Concrete instance of `sipLoopLive_no_priced_month`. -/
theorem sipLoopLive_no_priced_month_witness :
    sipLoopLive (fun _ => none) (fun _ => some 10) 5000 [3, 4, 5] = ⟨0, 0, 0, []⟩ :=
  sipLoopLive_no_priced_month _ _ _ _ (by decide)

/-! ### C6 and C9: NAV lookup lemmas -/

/-- On a non-empty series of positive NAVs, `findNavOnDate` always returns a
positive price (exact match, on-or-before match, or earliest-price fallback). -/
theorem findNavOnDate_pos (nav : List NavItem) (d : Date3)
    (hne : nav ≠ []) (hpos : ∀ it ∈ nav, 0 < it.nav) :
    ∃ p, findNavOnDate nav d = some p ∧ 0 < p := by
  cases hfind : nav.find? (fun it => it.date = d) with
  | some it =>
    refine ⟨it.nav, ?_, hpos it (List.mem_of_find?_eq_some hfind)⟩
    simp only [findNavOnDate, hfind]
  | none =>
    cases hrev : (sortNav nav).reverse.find? (fun it => dateLe it.date d) with
    | some it =>
      have hmem := List.mem_of_find?_eq_some hrev
      rw [List.mem_reverse] at hmem
      refine ⟨it.nav, ?_, hpos it ((List.mem_insertionSort navLe).mp hmem)⟩
      simp only [findNavOnDate, hfind, hrev]
    | none =>
      cases hsn : sortNav nav with
      | nil =>
        exfalso
        have hperm := List.perm_insertionSort navLe nav
        rw [show List.insertionSort navLe nav = sortNav nav from rfl, hsn] at hperm
        exact hne hperm.symm.eq_nil
      | cons a tl =>
        have hmem : a ∈ nav := by
          have ha : a ∈ sortNav nav := by rw [hsn]; exact List.mem_cons_self a tl
          exact (List.mem_insertionSort navLe).mp ha
        have hp := hpos a hmem
        have hrev2 := hrev
        rw [hsn] at hrev2
        refine ⟨a.nav, ?_, hp⟩
        simp only [findNavOnDate, hfind, hsn, hrev2, List.head?_cons]
        simp [if_neg (ne_of_gt hp)]

/-- C9: for any non-empty positive-NAV series pair and positive amount, the
lump-sum purchase round-trips exactly in rational arithmetic:
`unitsHeld * priceOnOrBefore(series, investmentDate) = amount` for both
legs, with `totalContributed = amount`. -/
theorem calculateLumpSum_roundtrip (navC navP : List NavItem) (amt : ℚ) (d : Date3)
    (hCne : navC ≠ []) (hPne : navP ≠ [])
    (hCpos : ∀ it ∈ navC, 0 < it.nav) (hPpos : ∀ it ∈ navP, 0 < it.nav)
    (_hamt : 0 < amt) :
    ∃ r pC pP, calculateLumpSum navC navP amt d = Except.ok r ∧
      findNavOnDate navC d = some pC ∧ findNavOnDate navP d = some pP ∧
      r.currentUnits * pC = amt ∧ r.comparisonUnits * pP = amt ∧
      r.totalInvested = amt := by
  obtain ⟨pC, hC, hCp⟩ := findNavOnDate_pos navC d hCne hCpos
  obtain ⟨pP, hP, hPp⟩ := findNavOnDate_pos navP d hPne hPpos
  refine ⟨⟨amt / pC, amt / pP, amt⟩, pC, pP, ?_, hC, hP, ?_, ?_, rfl⟩
  · simp only [calculateLumpSum, hC, hP]
    rw [if_neg]
    push_neg
    exact ⟨ne_of_gt hCp, ne_of_gt hPp⟩
  · exact div_mul_cancel₀ amt (ne_of_gt hCp)
  · exact div_mul_cancel₀ amt (ne_of_gt hPp)

/-- Concrete instance of `calculateLumpSum_roundtrip` on the specification
scenario (price 100 on 2020-01-01, 150 on 2023-01-01, lump sum 100000). -/
theorem calculateLumpSum_roundtrip_witness :
    ∃ r pC pP,
      calculateLumpSum [⟨⟨2020,1,1⟩,100⟩, ⟨⟨2023,1,1⟩,150⟩]
        [⟨⟨2020,1,1⟩,100⟩, ⟨⟨2023,1,1⟩,150⟩] 100000 ⟨2020,1,1⟩ = Except.ok r ∧
      findNavOnDate [⟨⟨2020,1,1⟩,100⟩, ⟨⟨2023,1,1⟩,150⟩] ⟨2020,1,1⟩ = some pC ∧
      findNavOnDate [⟨⟨2020,1,1⟩,100⟩, ⟨⟨2023,1,1⟩,150⟩] ⟨2020,1,1⟩ = some pP ∧
      r.currentUnits * pC = 100000 ∧ r.comparisonUnits * pP = 100000 ∧
      r.totalInvested = 100000 :=
  calculateLumpSum_roundtrip _ _ _ _ (by decide) (by decide) (by decide) (by decide)
    (by decide)

/-- C6 counterexample: a lump-sum request dated 2020-01-01 against a series
whose earliest observation is 2020-05-01 succeeds via the earliest-price
fallback of `findNavOnDate`, instead of failing with an
`InsufficientDataError` as the claim states. -/
theorem calculateLumpSum_predates_series_succeeds :
    findNavOnDate [⟨⟨2020,5,1⟩, 50⟩] ⟨2020,1,1⟩ = some 50 ∧
    calculateLumpSum [⟨⟨2020,5,1⟩, 50⟩] [⟨⟨2020,5,1⟩, 50⟩] 100 ⟨2020,1,1⟩
      = Except.ok ⟨2, 2, 100⟩ :=
  ⟨by decide, by decide⟩

/-- On a date-sorted positive-NAV series all of whose observations lie
strictly after the target date, `findNavOnDate` returns the earliest
(first) price of the series — the documented fallback of the spec's
section 4.1 lookup contract. -/
theorem findNavOnDate_before_series (a : NavItem) (t : List NavItem) (d : Date3)
    (hs : List.Sorted navLe (a :: t))
    (hpos : ∀ it ∈ a :: t, 0 < it.nav)
    (hafter : ∀ it ∈ a :: t, ¬ dateLe it.date d) :
    findNavOnDate (a :: t) d = some a.nav := by
  have hfind : (a :: t).find? (fun it => it.date = d) = none := by
    rw [List.find?_eq_none]
    intro it hit
    simp only [decide_eq_true_eq]
    intro heq
    exact hafter it hit (heq ▸ dateLe_refl it.date)
  have hsort : sortNav (a :: t) = a :: t := hs.insertionSort_eq
  have hrev : ((a :: t).reverse).find? (fun it => dateLe it.date d) = none := by
    rw [List.find?_eq_none]
    intro it hit
    rw [List.mem_reverse] at hit
    simp only [decide_eq_true_eq]
    exact hafter it hit
  have hp := hpos a (List.mem_cons_self a t)
  simp only [findNavOnDate, hfind, hsort, hrev, List.head?_cons]
  simp [if_neg (ne_of_gt hp)]

/-- C6 amended: for a non-empty, date-sorted, positive-priced series pair
whose every observation lies strictly after the requested investment date,
`findNavOnDate` falls back to the earliest available price of each series
(section 4.1 contract) and `calculateLumpSum` succeeds with units bought at
those earliest prices — it does not fail with an `InsufficientDataError`. -/
theorem calculateLumpSum_earliest_price_fallback (a b : NavItem)
    (t u : List NavItem) (amt : ℚ) (d : Date3)
    (hCs : List.Sorted navLe (a :: t)) (hPs : List.Sorted navLe (b :: u))
    (hCpos : ∀ it ∈ a :: t, 0 < it.nav) (hPpos : ∀ it ∈ b :: u, 0 < it.nav)
    (hCafter : ∀ it ∈ a :: t, ¬ dateLe it.date d)
    (hPafter : ∀ it ∈ b :: u, ¬ dateLe it.date d) :
    findNavOnDate (a :: t) d = some a.nav ∧
    findNavOnDate (b :: u) d = some b.nav ∧
    calculateLumpSum (a :: t) (b :: u) amt d
      = Except.ok ⟨amt / a.nav, amt / b.nav, amt⟩ := by
  have hC := findNavOnDate_before_series a t d hCs hCpos hCafter
  have hP := findNavOnDate_before_series b u d hPs hPpos hPafter
  refine ⟨hC, hP, ?_⟩
  simp only [calculateLumpSum, hC, hP]
  rw [if_neg]
  push_neg
  exact ⟨ne_of_gt (hCpos a (List.mem_cons_self a t)),
    ne_of_gt (hPpos b (List.mem_cons_self b u))⟩

/-- Concrete instance of `calculateLumpSum_earliest_price_fallback`. -/
theorem calculateLumpSum_earliest_price_fallback_witness :
    findNavOnDate [⟨⟨2020,5,1⟩, 50⟩] ⟨2020,1,1⟩ = some (50:ℚ) ∧
    findNavOnDate [⟨⟨2020,5,1⟩, 40⟩] ⟨2020,1,1⟩ = some (40:ℚ) ∧
    calculateLumpSum [⟨⟨2020,5,1⟩, 50⟩] [⟨⟨2020,5,1⟩, 40⟩] 200 ⟨2020,1,1⟩
      = Except.ok ⟨200 / 50, 200 / 40, 200⟩ :=
  calculateLumpSum_earliest_price_fallback ⟨⟨2020,5,1⟩, 50⟩ ⟨⟨2020,5,1⟩, 40⟩ [] []
    200 ⟨2020,1,1⟩ (by simp) (by simp) (by decide) (by decide) (by decide) (by decide)

/-! ### C2 and C7: risk estimator lemmas -/

/-- The total-invested fold is at least its initial accumulator when every
fund has positive capital, and strictly greater when the list is non-empty. -/
theorem foldl_totalInvested_lt (funds : List Fund) :
    ∀ init : ℚ, (∀ f ∈ funds, 0 < f.totalInvested) → funds ≠ [] →
      init < funds.foldl (fun acc f => acc + f.totalInvested) init := by
  induction funds with
  | nil => intro init _ hne; exact absurd rfl hne
  | cons f rest ih =>
    intro init hpos _
    have hstep : init < init + f.totalInvested := by
      have := hpos f (List.mem_cons_self f rest)
      linarith
    cases rest with
    | nil => simpa using hstep
    | cons g rest2 =>
      have := ih (init + f.totalInvested)
        (fun x hx => hpos x (List.mem_cons_of_mem f hx)) (by simp)
      calc init < init + f.totalInvested := hstep
        _ < _ := this

/-- The weighted-variance accumulation of `portfolioVolSum` never decreases
below its initial accumulator. -/
theorem portfolioVolSum_ge (lookup : VolLookup) (total : ℚ) :
    ∀ (funds : List Fund) (acc S : ℚ),
      portfolioVolSum lookup total funds acc = Except.ok S → acc ≤ S := by
  intro funds
  induction funds with
  | nil =>
    intro acc S h
    simp only [portfolioVolSum] at h
    cases h
    exact le_refl _
  | cons f rest ih =>
    intro acc S h
    simp only [portfolioVolSum] at h
    cases hl : lookup (getBenchmarkForCategory (if f.category = "" then "Unknown" else f.category)) with
    | none => simp only [hl] at h; cases h
    | some v =>
      simp only [hl] at h
      by_cases hv : v = 0
      · rw [if_pos hv] at h; cases h
      · rw [if_neg hv] at h
        have hstep : acc ≤ acc + (f.totalInvested / total) * (f.totalInvested / total) * v * v := by
          have hsq : 0 ≤ (f.totalInvested / total) * (f.totalInvested / total) * v * v := by
            have : (f.totalInvested / total) * (f.totalInvested / total) * v * v
                = ((f.totalInvested / total) * v) * ((f.totalInvested / total) * v) := by ring
            rw [this]
            exact mul_self_nonneg _
          linarith
        exact le_trans hstep (ih _ _ h)

/-- C7 amended: the Sharpe-ratio denominator of the dynamic risk path is
strictly positive whenever the volatility computation succeeds on a
non-empty portfolio with positive invested capital (a falsy benchmark
volatility throws instead), for any square-root function positive on
positive inputs — so the unguarded division in `calculatePortfolioRisk`
never divides by zero on that path; the `null` Sharpe contract itself is
not implemented (see the counterexample, where the reported rounded
volatility is `0` next to a numeric Sharpe ratio). -/
theorem calculatePortfolioVolatility_dynamic_pos (sqrtFn : ℚ → ℚ)
    (lookup : VolLookup) (funds : List Fund) (vol : ℚ)
    (hsq : ∀ x : ℚ, 0 < x → 0 < sqrtFn x)
    (hne : funds ≠ [])
    (hpos : ∀ f ∈ funds, 0 < f.totalInvested)
    (hok : calculatePortfolioVolatility sqrtFn lookup funds = Except.ok vol) :
    0 < vol := by
  unfold calculatePortfolioVolatility at hok
  cases hsum : portfolioVolSum lookup
      (funds.foldl (fun acc f => acc + f.totalInvested) 0) funds 0 with
  | error e => rw [hsum] at hok; cases hok
  | ok S =>
    rw [hsum] at hok
    cases hok
    have htot : 0 < funds.foldl (fun acc f => acc + f.totalInvested) 0 :=
      foldl_totalInvested_lt funds 0 hpos hne
    have hS : 0 < S := by
      cases funds with
      | nil => exact absurd rfl hne
      | cons f rest =>
        simp only [portfolioVolSum] at hsum
        cases hl : lookup (getBenchmarkForCategory
            (if f.category = "" then "Unknown" else f.category)) with
        | none => simp only [hl] at hsum; cases hsum
        | some v =>
          simp only [hl] at hsum
          by_cases hv : v = 0
          · rw [if_pos hv] at hsum; cases hsum
          · rw [if_neg hv] at hsum
            have hw : 0 < f.totalInvested /
                ((f :: rest).foldl (fun acc g => acc + g.totalInvested) 0) :=
              div_pos (hpos f (List.mem_cons_self f rest)) htot
            have hvv : 0 < v * v := mul_self_pos.mpr hv
            have hstep : 0 < f.totalInvested /
                  ((f :: rest).foldl (fun acc g => acc + g.totalInvested) 0)
                * (f.totalInvested /
                  ((f :: rest).foldl (fun acc g => acc + g.totalInvested) 0))
                * v * v := by
              have h1 := mul_pos (mul_pos hw hw) hvv
              calc (0:ℚ)
                  < f.totalInvested /
                      ((f :: rest).foldl (fun acc g => acc + g.totalInvested) 0)
                    * (f.totalInvested /
                      ((f :: rest).foldl (fun acc g => acc + g.totalInvested) 0))
                    * (v * v) := h1
                _ = _ := by ring
            have hge := portfolioVolSum_ge lookup _ rest _ _ hsum
            linarith
    exact hsq S hS

/-- Concrete instance of `calculatePortfolioVolatility_dynamic_pos` (square
root taken as the identity, which is positive on positives). -/
theorem calculatePortfolioVolatility_dynamic_pos_witness : (0 : ℚ) < 1/1000000 :=
  calculatePortfolioVolatility_dynamic_pos (fun x => x)
    (fun s => if s = "nifty50" then some (1/1000) else none)
    [⟨"Large Cap", 1000, 12⟩] (1/1000000)
    (fun _ hx => hx) (by decide) (by decide) (by decide)

/-- C7 counterexample: a single Large Cap fund whose benchmark volatility is
`0.001`.  The returned risk metrics report `volatility = 0` (the rounded
value) while `sharpeRatio = 6000`, a definite number — not the `null` the
claim requires when the resolved volatility is 0.  The second conjunct
certifies that `ratSqrt` is the exact square root on the variance value this
run produces, so the run agrees with real `Math.sqrt` semantics. -/
theorem calculatePortfolioRisk_zero_volatility_numeric_sharpe :
    calculatePortfolioRisk ratSqrt
        (fun s => if s = "nifty50" then some (1/1000) else none)
        (some 6) [⟨"Large Cap", 1000, 12⟩]
      = ⟨"Low", 1, 0, 6000⟩ ∧
    ratSqrt (1/1000000) * ratSqrt (1/1000000) = 1/1000000 :=
  ⟨by decide, by decide⟩

/-- An error from `getRiskScoreByCategory` for any portfolio member makes
the whole dynamic weighted-risk loop error. -/
theorem dynWeightedRisk_error (lookup : VolLookup) (total : ℚ) :
    ∀ (funds : List Fund) (acc : ℚ),
      (∃ f ∈ funds, ∃ e, getRiskScoreByCategory lookup f.category = Except.error e) →
      ∃ e, dynWeightedRisk lookup total funds acc = Except.error e := by
  intro funds
  induction funds with
  | nil =>
    intro acc h
    obtain ⟨f, hf, _⟩ := h
    exact absurd hf (List.not_mem_nil f)
  | cons g rest ih =>
    intro acc h
    cases hg : getRiskScoreByCategory lookup g.category with
    | error e =>
      exact ⟨e, by simp only [dynWeightedRisk, hg]⟩
    | ok sc =>
      obtain ⟨f, hf, e, he⟩ := h
      rcases List.mem_cons.mp hf with heq | hmem
      · exfalso; rw [heq, hg] at he; cases he
      · obtain ⟨e2, he2⟩ := ih (acc + sc * (g.totalInvested / total)) ⟨f, hmem, e, he⟩
        exact ⟨e2, by simp only [dynWeightedRisk, hg, he2]⟩

/-- C2 amended: when benchmark data needed for any fund's risk score is
missing or unreachable, the helper `getRiskScoreByCategory` does raise an
error, but `calculatePortfolioRisk` catches it and returns the static
fallback result — a fabricated per-category risk score and an approximated
volatility — instead of propagating the error to the caller. -/
theorem calculatePortfolioRisk_falls_back_to_static (sqrtFn : ℚ → ℚ)
    (lookup : VolLookup) (bondYield : Option ℚ) (funds : List Fund)
    (h : ∃ f ∈ funds, ∃ e, getRiskScoreByCategory lookup f.category = Except.error e) :
    calculatePortfolioRisk sqrtFn lookup bondYield funds
      = staticPortfolioRisk sqrtFn bondYield funds := by
  obtain ⟨e, he⟩ := dynWeightedRisk_error lookup
    (funds.foldl (fun acc f => acc + f.totalInvested) 0) funds 0 h
  simp only [calculatePortfolioRisk, he]

/-- Concrete instance of `calculatePortfolioRisk_falls_back_to_static`:
with every benchmark fetch failing, the result is the static fallback. -/
theorem calculatePortfolioRisk_falls_back_to_static_witness :
    calculatePortfolioRisk (fun x => x) (fun _ => none) none [⟨"Small Cap", 500, 10⟩]
      = staticPortfolioRisk (fun x => x) none [⟨"Small Cap", 500, 10⟩] :=
  calculatePortfolioRisk_falls_back_to_static (fun x => x) (fun _ => none) none
    [⟨"Small Cap", 500, 10⟩]
    ⟨⟨"Small Cap", 500, 10⟩, by decide,
      "Unable to calculate risk score for category Small Cap", by decide⟩

/-- C2 counterexample: with the benchmark-volatility provider unreachable
for every index, the risk-score helper raises, yet `calculatePortfolioRisk`
returns the fabricated static result for a Mid Cap fund: risk score 4 from
the hardcoded table, volatility `sqrt(4) * 5 = 10`, Sharpe `(12-6)/10 = 0.6`
— no error reaches the caller.  The last conjunct certifies `ratSqrt` is
exact on the value this run takes a square root of. -/
theorem calculatePortfolioRisk_fabricates_on_missing_benchmark :
    getRiskScoreByCategory (fun _ => none) "Mid Cap"
      = Except.error "Unable to calculate risk score for category Mid Cap" ∧
    calculatePortfolioRisk ratSqrt (fun _ => none) (some 6) [⟨"Mid Cap", 1000, 12⟩]
      = ⟨"Moderate", 4, 10, 3/5⟩ ∧
    ratSqrt 4 * ratSqrt 4 = 4 :=
  ⟨by decide, by decide, by decide⟩

/-! ### C8 and C10: comparison result structure -/

/-- Inversion for a successful live `calculatePortfolioComparison`: the
result is the assembled record over the simulation outputs, with
`percentageDifference` relative to `totalInvested`. -/
theorem calculatePortfolioComparisonLive_ok (cn pn : String)
    (navC navP : List NavItem) (ty : String) (amt : ℚ) (sD eD : Date3)
    (r : CompResult)
    (hok : calculatePortfolioComparisonLive cn pn navC navP ty amt sD eD
      = Except.ok r) :
    ∃ cu pu ti chart,
      ((ty = "sip" ∧ calculateSIPLive navC navP amt sD eD = ⟨cu, pu, ti, chart⟩) ∨
        (ty ≠ "sip" ∧ calculateLumpSum navC navP amt sD = Except.ok ⟨cu, pu, ti⟩ ∧
          chart = ([] : List ChartPoint))) ∧
      r = ⟨⟨jsRound (cu * jsOr (navC.getLast?.map NavItem.nav) 0), ti, cn,
            toFixed4 cu, jsOr (navC.getLast?.map NavItem.nav) 0⟩,
          ⟨jsRound (pu * jsOr (navP.getLast?.map NavItem.nav) 0), ti, pn,
            toFixed4 pu, jsOr (navP.getLast?.map NavItem.nav) 0⟩,
          jsRound (pu * jsOr (navP.getLast?.map NavItem.nav) 0
            - cu * jsOr (navC.getLast?.map NavItem.nav) 0),
          (if 0 < ti then
            toFixed2 ((pu * jsOr (navP.getLast?.map NavItem.nav) 0
              - cu * jsOr (navC.getLast?.map NavItem.nav) 0) / ti * 100)
          else 0),
          lastN 24 chart⟩ := by
  unfold calculatePortfolioComparisonLive at hok
  by_cases hg : navC = [] ∨ navP = []
  · rw [if_pos hg] at hok; cases hok
  · rw [if_neg hg] at hok
    by_cases hty : ty = "sip"
    · rw [if_pos hty] at hok
      simp only [Except.map] at hok
      injection hok with hr
      exact ⟨(calculateSIPLive navC navP amt sD eD).currentUnits,
        (calculateSIPLive navC navP amt sD eD).comparisonUnits,
        (calculateSIPLive navC navP amt sD eD).totalInvested,
        (calculateSIPLive navC navP amt sD eD).chartData,
        Or.inl ⟨hty, rfl⟩, hr.symm⟩
    · rw [if_neg hty] at hok
      cases hl : calculateLumpSum navC navP amt sD with
      | error e => rw [hl] at hok; simp only [Except.map] at hok; cases hok
      | ok lr =>
        rw [hl] at hok
        simp only [Except.map] at hok
        injection hok with hr
        exact ⟨lr.currentUnits, lr.comparisonUnits, lr.totalInvested, [],
          Or.inr ⟨hty, rfl, rfl⟩, hr.symm⟩

/-- Inversion for a successful static `calculatePortfolioComparison`: same
record shape, but `percentageDifference` is divided by the (unrounded)
current value instead of `totalInvested`. -/
theorem calculatePortfolioComparisonStatic_ok (cn pn : String)
    (navC navP : List NavItem) (ty : String) (amt : ℚ) (sD eD : Date3)
    (r : CompResult)
    (hok : calculatePortfolioComparisonStatic cn pn navC navP ty amt sD eD
      = Except.ok r) :
    ∃ cu pu ti chart,
      ((ty = "sip" ∧ calculateSIPStatic navC navP amt sD eD = ⟨cu, pu, ti, chart⟩) ∨
        (ty ≠ "sip" ∧ calculateLumpSum navC navP amt sD = Except.ok ⟨cu, pu, ti⟩ ∧
          chart = ([] : List ChartPoint))) ∧
      r = ⟨⟨jsRound (cu * jsOr (navC.getLast?.map NavItem.nav) 0), ti, cn,
            toFixed4 cu, jsOr (navC.getLast?.map NavItem.nav) 0⟩,
          ⟨jsRound (pu * jsOr (navP.getLast?.map NavItem.nav) 0), ti, pn,
            toFixed4 pu, jsOr (navP.getLast?.map NavItem.nav) 0⟩,
          jsRound (pu * jsOr (navP.getLast?.map NavItem.nav) 0
            - cu * jsOr (navC.getLast?.map NavItem.nav) 0),
          (if 0 < ti then
            toFixed2 ((pu * jsOr (navP.getLast?.map NavItem.nav) 0
              - cu * jsOr (navC.getLast?.map NavItem.nav) 0)
              / (cu * jsOr (navC.getLast?.map NavItem.nav) 0) * 100)
          else 0),
          lastN 24 chart⟩ := by
  unfold calculatePortfolioComparisonStatic at hok
  by_cases hg : navC = [] ∨ navP = []
  · rw [if_pos hg] at hok; cases hok
  · rw [if_neg hg] at hok
    by_cases hty : ty = "sip"
    · rw [if_pos hty] at hok
      simp only [Except.map] at hok
      injection hok with hr
      exact ⟨(calculateSIPStatic navC navP amt sD eD).currentUnits,
        (calculateSIPStatic navC navP amt sD eD).comparisonUnits,
        (calculateSIPStatic navC navP amt sD eD).totalInvested,
        (calculateSIPStatic navC navP amt sD eD).chartData,
        Or.inl ⟨hty, rfl⟩, hr.symm⟩
    · rw [if_neg hty] at hok
      cases hl : calculateLumpSum navC navP amt sD with
      | error e => rw [hl] at hok; simp only [Except.map] at hok; cases hok
      | ok lr =>
        rw [hl] at hok
        simp only [Except.map] at hok
        injection hok with hr
        exact ⟨lr.currentUnits, lr.comparisonUnits, lr.totalInvested, [],
          Or.inr ⟨hty, rfl, rfl⟩, hr.symm⟩

/-- C8 counterexample: a concrete lump-sum comparison (invested 100, current
value 200, comparison value 250) on which the static variant returns
`percentageDifference = 25` — the value of `(250-200)/currentValue*100` —
while the claimed formula relative to the shared invested total yields 50. -/
theorem calculatePortfolioComparisonStatic_pct_divides_by_current_value :
    calculatePortfolioComparisonStatic "A" "B"
      [⟨⟨2020,1,1⟩,10⟩, ⟨⟨2023,1,1⟩,20⟩] [⟨⟨2020,1,1⟩,10⟩, ⟨⟨2023,1,1⟩,25⟩]
      "lump" 100 ⟨2020,1,1⟩ ⟨2023,1,1⟩
      = Except.ok ⟨⟨200,100,"A",10,20⟩, ⟨250,100,"B",10,25⟩, 50, 25, []⟩ ∧
    ((250 : ℚ) - 200) / 100 * 100 = 50 ∧ (25 : ℚ) ≠ 50 :=
  ⟨by decide, by decide, by decide⟩

/-- C8 amended: for every successful comparison with positive shared
invested total there are (unrounded) current and comparison values `v`, `cv`
with `difference = round(cv - v)`; the live variant computes
`percentageDifference` relative to the shared invested total as the claim
states, but the static variant divides by the unrounded current value `v`
instead. -/
theorem calculatePortfolioComparison_pct_formulas (cn pn : String)
    (navC navP : List NavItem) (ty : String) (amt : ℚ) (sD eD : Date3) :
    (∀ r, calculatePortfolioComparisonLive cn pn navC navP ty amt sD eD
        = Except.ok r →
      0 < r.current.invested → ∃ cv v : ℚ,
        r.current.value = jsRound v ∧
        r.comparison.value = jsRound cv ∧
        r.difference = jsRound (cv - v) ∧
        r.percentageDifference = toFixed2 ((cv - v) / r.current.invested * 100)) ∧
    (∀ r, calculatePortfolioComparisonStatic cn pn navC navP ty amt sD eD
        = Except.ok r →
      0 < r.current.invested → ∃ cv v : ℚ,
        r.current.value = jsRound v ∧
        r.comparison.value = jsRound cv ∧
        r.difference = jsRound (cv - v) ∧
        r.percentageDifference = toFixed2 ((cv - v) / v * 100)) := by
  constructor
  · intro r hok hpos
    obtain ⟨cu, pu, ti, chart, _, hr⟩ :=
      calculatePortfolioComparisonLive_ok cn pn navC navP ty amt sD eD r hok
    subst hr
    refine ⟨pu * jsOr (navP.getLast?.map NavItem.nav) 0,
      cu * jsOr (navC.getLast?.map NavItem.nav) 0, rfl, rfl, rfl, ?_⟩
    simp only at hpos
    simp [if_pos hpos]
  · intro r hok hpos
    obtain ⟨cu, pu, ti, chart, _, hr⟩ :=
      calculatePortfolioComparisonStatic_ok cn pn navC navP ty amt sD eD r hok
    subst hr
    refine ⟨pu * jsOr (navP.getLast?.map NavItem.nav) 0,
      cu * jsOr (navC.getLast?.map NavItem.nav) 0, rfl, rfl, rfl, ?_⟩
    simp only at hpos
    simp [if_pos hpos]

/-- Concrete instance of `calculatePortfolioComparison_pct_formulas` on the
C8 counterexample data, live variant: the percentage is 50, matching the
formula over the shared invested total. -/
theorem calculatePortfolioComparison_pct_formulas_witness :
    ∃ cv v : ℚ,
      (CompResult.current ⟨⟨200,100,"A",10,20⟩, ⟨250,100,"B",10,25⟩, 50, 50, []⟩).value
        = jsRound v ∧
      (CompResult.comparison ⟨⟨200,100,"A",10,20⟩, ⟨250,100,"B",10,25⟩, 50, 50, []⟩).value
        = jsRound cv ∧
      (CompResult.difference ⟨⟨200,100,"A",10,20⟩, ⟨250,100,"B",10,25⟩, 50, 50, []⟩)
        = jsRound (cv - v) ∧
      (CompResult.percentageDifference ⟨⟨200,100,"A",10,20⟩, ⟨250,100,"B",10,25⟩, 50, 50, []⟩)
        = toFixed2 ((cv - v) /
            (CompResult.current ⟨⟨200,100,"A",10,20⟩, ⟨250,100,"B",10,25⟩, 50, 50, []⟩).invested
            * 100) :=
  (calculatePortfolioComparison_pct_formulas "A" "B"
    [⟨⟨2020,1,1⟩,10⟩, ⟨⟨2023,1,1⟩,20⟩] [⟨⟨2020,1,1⟩,10⟩, ⟨⟨2023,1,1⟩,25⟩]
    "lump" 100 ⟨2020,1,1⟩ ⟨2023,1,1⟩).1
    ⟨⟨200,100,"A",10,20⟩, ⟨250,100,"B",10,25⟩, 50, 50, []⟩ (by decide) (by decide)

/-- Generic invariant of the SIP month fold, for any loop body that skips a
month failing the purchase condition `P` and otherwise adds `amt` to the
running total and pushes one chart point carrying the new total as its
`invested` field: the chart dates are exactly the purchased months in order,
and the running totals are `amt, 2*amt, ...`. -/
theorem sipFold_inv (amt : ℚ) (body : SipState → ℕ → SipState) (P : ℕ → Bool)
    (hskip : ∀ s k, P k = false → body s k = s)
    (hstep : ∀ s k, P k = true → ∃ cu pu c1 c2,
      body s k = ⟨cu, pu, s.totalInvested + amt,
        s.chartData ++ [⟨k, c1, c2, s.totalInvested + amt⟩]⟩) :
    ∀ (months : List ℕ) (s : SipState),
      ((months.foldl body s).chartData.map ChartPoint.date
        = s.chartData.map ChartPoint.date ++ months.filter P) ∧
      ((months.foldl body s).totalInvested
        = s.totalInvested + amt * ((months.filter P).length : ℚ)) ∧
      ((months.foldl body s).chartData.map ChartPoint.invested
        = s.chartData.map ChartPoint.invested
          ++ (List.range (months.filter P).length).map
              (fun (j : ℕ) => s.totalInvested + amt * ((j : ℚ) + 1))) := by
  intro months
  induction months with
  | nil => intro s; simp
  | cons k ms ih =>
    intro s
    rw [List.foldl_cons]
    cases hP : P k with
    | false =>
      rw [hskip s k hP]
      obtain ⟨ihd, ihti, ihinv⟩ := ih s
      refine ⟨?_, ?_, ?_⟩
      · rw [ihd, List.filter_cons_of_neg (by simp [hP])]
      · rw [ihti, List.filter_cons_of_neg (by simp [hP])]
      · rw [ihinv, List.filter_cons_of_neg (by simp [hP])]
    | true =>
      obtain ⟨cu, pu, c1, c2, hbody⟩ := hstep s k hP
      rw [hbody]
      obtain ⟨ihd, ihti, ihinv⟩ :=
        ih ⟨cu, pu, s.totalInvested + amt,
          s.chartData ++ [⟨k, c1, c2, s.totalInvested + amt⟩]⟩
      have hfil : (k :: ms).filter P = k :: ms.filter P :=
        List.filter_cons_of_pos (by simp [hP])
      refine ⟨?_, ?_, ?_⟩
      · rw [ihd, hfil]
        simp
      · rw [ihti, hfil]
        simp only [List.length_cons]
        push_cast
        ring
      · rw [ihinv, hfil]
        simp only [List.length_cons, List.range_succ_eq_map, List.map_cons,
          List.map_map, List.map_append, List.map_cons, List.map_nil]
        rw [List.append_assoc]
        congr 1
        simp only [List.singleton_append, Nat.cast_zero, zero_add, mul_one]
        congr 1
        apply List.map_congr_left
        intro j _
        simp only [Function.comp]
        push_cast
        ring

/-- The live SIP body satisfies the generic fold invariant hypotheses. -/
theorem sipBodyLive_step (mc mp : ℕ → Option ℚ) (amt : ℚ) (s : SipState) (k : ℕ)
    (h : bothTruthy mc mp k = true) :
    ∃ cu pu c1 c2,
      sipBodyLive mc mp amt s k = ⟨cu, pu, s.totalInvested + amt,
        s.chartData ++ [⟨k, c1, c2, s.totalInvested + amt⟩]⟩ := by
  rw [bothTruthy, Bool.and_eq_true] at h
  obtain ⟨cv, hc, hcv⟩ := (jsTruthy_eq_true_iff (mc k)).mp h.1
  obtain ⟨pv, hp, hpv⟩ := (jsTruthy_eq_true_iff (mp k)).mp h.2
  refine ⟨s.currentUnits + amt / cv, s.comparisonUnits + amt / pv,
    jsRound ((s.currentUnits + amt / cv) * cv),
    jsRound ((s.comparisonUnits + amt / pv) * pv), ?_⟩
  simp only [sipBodyLive, hc, hp]
  rw [if_neg]
  push_neg
  exact ⟨hcv, hpv⟩

/-- The static SIP body satisfies the generic fold invariant hypotheses. -/
theorem sipBodyStatic_step (mc mp : ℕ → Option ℚ) (lastC lastP : Option ℚ)
    (amt : ℚ) (s : SipState) (k : ℕ)
    (h : bothTruthy mc mp k = true) :
    ∃ cu pu c1 c2,
      sipBodyStatic mc mp lastC lastP amt s k = ⟨cu, pu, s.totalInvested + amt,
        s.chartData ++ [⟨k, c1, c2, s.totalInvested + amt⟩]⟩ := by
  rw [bothTruthy, Bool.and_eq_true] at h
  obtain ⟨cv, hc, hcv⟩ := (jsTruthy_eq_true_iff (mc k)).mp h.1
  obtain ⟨pv, hp, hpv⟩ := (jsTruthy_eq_true_iff (mp k)).mp h.2
  refine ⟨s.currentUnits + amt / cv, s.comparisonUnits + amt / pv,
    jsRound ((s.currentUnits + amt / cv) * jsOr lastC cv),
    jsRound ((s.comparisonUnits + amt / pv) * jsOr lastP pv), ?_⟩
  simp only [sipBodyStatic, hc, hp]
  rw [if_neg]
  push_neg
  exact ⟨hcv, hpv⟩

/-- The static SIP body skips a month failing the purchase condition. -/
theorem sipBodyStatic_skip (mc mp : ℕ → Option ℚ) (lastC lastP : Option ℚ)
    (amt : ℚ) (s : SipState) (k : ℕ)
    (h : jsTruthy (mc k) = false ∨ jsTruthy (mp k) = false) :
    sipBodyStatic mc mp lastC lastP amt s k = s := by
  unfold sipBodyStatic
  cases hc : mc k with
  | none => rfl
  | some cv =>
    cases hp : mp k with
    | none => rfl
    | some pv =>
      rw [hc, hp] at h
      simp only [jsTruthy, bne_eq_false_iff_eq] at h
      simp [h]

/-- A false purchase condition means one of the two lookups is falsy. -/
theorem bothTruthy_eq_false (mc mp : ℕ → Option ℚ) (k : ℕ)
    (h : bothTruthy mc mp k = false) :
    jsTruthy (mc k) = false ∨ jsTruthy (mp k) = false := by
  rw [bothTruthy, Bool.and_eq_false_iff] at h
  exact h

/-- Strictly increasing running totals: `amt, 2*amt, ...` for `amt > 0`. -/
theorem pairwise_lt_invested (amt : ℚ) (n : ℕ) (h : 0 < amt) :
    ((List.range n).map (fun (j : ℕ) => amt * ((j : ℚ) + 1))).Pairwise (· < ·) := by
  refine List.Pairwise.map _ ?_ (List.pairwise_lt_range n)
  intro a b hab
  have hab2 : ((a : ℚ) + 1) < ((b : ℚ) + 1) := by
    have : (a : ℚ) < (b : ℚ) := by exact_mod_cast hab
    linarith
  exact mul_lt_mul_of_pos_left hab2 h

/-- C10: in both SIP variants, a purchase happens exactly in the months
where BOTH monthly maps carry a truthy price (the chart dates equal the
filtered month sequence); `totalInvested` equals `monthlyAmount` times the
number of purchased months; every chart point's `invested` field is
`monthlyAmount * (purchases so far)`, strictly increasing when the amount is
positive; and in both comparison variants the current and comparison legs
carry the identical `invested` total. -/
theorem calculateSIP_purchase_invariants :
    (∀ (mc mp : ℕ → Option ℚ) (amt : ℚ) (months : List ℕ),
      (sipLoopLive mc mp amt months).chartData.map ChartPoint.date
          = months.filter (bothTruthy mc mp) ∧
      (sipLoopLive mc mp amt months).totalInvested
          = amt * ((sipLoopLive mc mp amt months).chartData.length : ℚ) ∧
      (sipLoopLive mc mp amt months).chartData.map ChartPoint.invested
          = (List.range (sipLoopLive mc mp amt months).chartData.length).map
              (fun (j : ℕ) => amt * ((j : ℚ) + 1)) ∧
      (0 < amt →
        ((sipLoopLive mc mp amt months).chartData.map
          ChartPoint.invested).Pairwise (· < ·))) ∧
    (∀ (mc mp : ℕ → Option ℚ) (lastC lastP : Option ℚ) (amt : ℚ) (months : List ℕ),
      (sipLoopStatic mc mp lastC lastP amt months).chartData.map ChartPoint.date
          = months.filter (bothTruthy mc mp) ∧
      (sipLoopStatic mc mp lastC lastP amt months).totalInvested
          = amt * ((sipLoopStatic mc mp lastC lastP amt months).chartData.length : ℚ) ∧
      (sipLoopStatic mc mp lastC lastP amt months).chartData.map ChartPoint.invested
          = (List.range (sipLoopStatic mc mp lastC lastP amt months).chartData.length).map
              (fun (j : ℕ) => amt * ((j : ℚ) + 1)) ∧
      (0 < amt →
        ((sipLoopStatic mc mp lastC lastP amt months).chartData.map
          ChartPoint.invested).Pairwise (· < ·))) ∧
    (∀ cn pn navC navP ty amt sD eD r,
      calculatePortfolioComparisonLive cn pn navC navP ty amt sD eD = Except.ok r →
        r.current.invested = r.comparison.invested) ∧
    (∀ cn pn navC navP ty amt sD eD r,
      calculatePortfolioComparisonStatic cn pn navC navP ty amt sD eD = Except.ok r →
        r.current.invested = r.comparison.invested) := by
  have hgen : ∀ (amt : ℚ) (body : SipState → ℕ → SipState) (P : ℕ → Bool),
      (∀ s k, P k = false → body s k = s) →
      (∀ s k, P k = true → ∃ cu pu c1 c2,
        body s k = ⟨cu, pu, s.totalInvested + amt,
          s.chartData ++ [⟨k, c1, c2, s.totalInvested + amt⟩]⟩) →
      ∀ months : List ℕ,
        (months.foldl body ⟨0, 0, 0, []⟩).chartData.map ChartPoint.date
            = months.filter P ∧
        (months.foldl body ⟨0, 0, 0, []⟩).totalInvested
            = amt * (((months.foldl body ⟨0, 0, 0, []⟩).chartData.length : ℕ) : ℚ) ∧
        (months.foldl body ⟨0, 0, 0, []⟩).chartData.map ChartPoint.invested
            = (List.range (months.foldl body ⟨0, 0, 0, []⟩).chartData.length).map
                (fun (j : ℕ) => amt * ((j : ℚ) + 1)) ∧
        (0 < amt →
          ((months.foldl body ⟨0, 0, 0, []⟩).chartData.map
            ChartPoint.invested).Pairwise (· < ·)) := by
    intro amt body P hskip hstep months
    obtain ⟨hd, hti, hinv⟩ := sipFold_inv amt body P hskip hstep months ⟨0, 0, 0, []⟩
    simp only [List.map_nil, List.nil_append, zero_add] at hd hti hinv
    have hlen : (months.foldl body ⟨0, 0, 0, []⟩).chartData.length
        = (months.filter P).length := by
      have := congrArg List.length hd
      simpa using this
    have hinv2 : (months.foldl body ⟨0, 0, 0, []⟩).chartData.map ChartPoint.invested
        = (List.range (months.foldl body ⟨0, 0, 0, []⟩).chartData.length).map
            (fun (j : ℕ) => amt * ((j : ℚ) + 1)) := by
      rw [hinv, hlen]
    refine ⟨hd, ?_, hinv2, ?_⟩
    · rw [hti, hlen]
    · intro hamt
      rw [hinv2]
      exact pairwise_lt_invested amt _ hamt
  refine ⟨?_, ?_, ?_, ?_⟩
  · intro mc mp amt months
    exact hgen amt (sipBodyLive mc mp amt) (bothTruthy mc mp)
      (fun s k hk => sipBodyLive_skip mc mp amt s k (bothTruthy_eq_false mc mp k hk))
      (fun s k hk => sipBodyLive_step mc mp amt s k hk) months
  · intro mc mp lastC lastP amt months
    exact hgen amt (sipBodyStatic mc mp lastC lastP amt) (bothTruthy mc mp)
      (fun s k hk => sipBodyStatic_skip mc mp lastC lastP amt s k
        (bothTruthy_eq_false mc mp k hk))
      (fun s k hk => sipBodyStatic_step mc mp lastC lastP amt s k hk) months
  · intro cn pn navC navP ty amt sD eD r hok
    obtain ⟨cu, pu, ti, chart, _, hr⟩ :=
      calculatePortfolioComparisonLive_ok cn pn navC navP ty amt sD eD r hok
    subst hr
    rfl
  · intro cn pn navC navP ty amt sD eD r hok
    obtain ⟨cu, pu, ti, chart, _, hr⟩ :=
      calculatePortfolioComparisonStatic_ok cn pn navC navP ty amt sD eD r hok
    subst hr
    rfl

/-- Concrete instance of `calculateSIP_purchase_invariants`: strictly
increasing invested totals on a three-month run, and identical invested
legs in a concrete live comparison. -/
theorem calculateSIP_purchase_invariants_witness :
    ((sipLoopLive (fun _ => some 10) (fun _ => some 20) 5000 [0, 1, 2]).chartData.map
        ChartPoint.invested).Pairwise (· < ·) ∧
    (LegResult.invested ⟨200,100,"A",10,20⟩) = (LegResult.invested ⟨250,100,"B",10,25⟩) :=
  ⟨(calculateSIP_purchase_invariants.1 (fun _ => some 10) (fun _ => some 20)
      5000 [0, 1, 2]).2.2.2 (by norm_num),
    calculateSIP_purchase_invariants.2.2.1 "A" "B"
      [⟨⟨2020,1,1⟩,10⟩, ⟨⟨2023,1,1⟩,20⟩] [⟨⟨2020,1,1⟩,10⟩, ⟨⟨2023,1,1⟩,25⟩]
      "lump" 100 ⟨2020,1,1⟩ ⟨2023,1,1⟩
      ⟨⟨200,100,"A",10,20⟩, ⟨250,100,"B",10,25⟩, 50, 50, []⟩ (by decide)⟩

/-! ### C1: XIRR Newton iteration -/

/-- One Newton update: `r_(k+1) = r_k - NPV(r_k) / dNPV(r_k)` (definitional
unfolding of `newtonSeq`). -/
theorem newtonSeq_succ (powFn : ℚ → ℚ → ℚ) (cashFlows dates : List ℚ) (k : ℕ) :
    newtonSeq powFn cashFlows dates (k + 1)
      = newtonSeq powFn cashFlows dates k
        - npvAt powFn cashFlows dates (newtonSeq powFn cashFlows dates k)
          / dnpvAt powFn cashFlows dates (newtonSeq powFn cashFlows dates k) := rfl

/-- Unfolding equation of the fuelled Newton loop. -/
theorem xirrGo_succ (powFn : ℚ → ℚ → ℚ) (cashFlows dates : List ℚ)
    (fuel : ℕ) (rate : ℚ) :
    xirrGo powFn cashFlows dates (fuel + 1) rate
      = if |npvAt powFn cashFlows dates rate| < 1/10000 then rate * 100
        else xirrGo powFn cashFlows dates fuel
          (rate - npvAt powFn cashFlows dates rate
            / dnpvAt powFn cashFlows dates rate) := rfl

/-- The fuelled Newton loop started at iterate `k` returns `r_j * 100` for
the first convergent iterate within its fuel, else the final iterate times
100 — the claimed convergence/cap behaviour. -/
theorem xirrGo_eq_spec (powFn : ℚ → ℚ → ℚ) (cashFlows dates : List ℚ) :
    ∀ (fuel k : ℕ),
      xirrGo powFn cashFlows dates fuel (newtonSeq powFn cashFlows dates k)
        = match (List.range fuel).find?
            (fun j => decide
              (|npvAt powFn cashFlows dates (newtonSeq powFn cashFlows dates (k + j))|
                < 1/10000)) with
          | some j => newtonSeq powFn cashFlows dates (k + j) * 100
          | none => newtonSeq powFn cashFlows dates (k + fuel) * 100 := by
  intro fuel
  induction fuel with
  | zero =>
    intro k
    simp [xirrGo]
  | succ fuel ih =>
    intro k
    rw [xirrGo_succ]
    by_cases hconv : |npvAt powFn cashFlows dates (newtonSeq powFn cashFlows dates k)|
        < 1/10000
    · rw [if_pos hconv]
      rw [List.range_succ_eq_map,
        List.find?_cons_of_pos _ (by simpa using hconv)]
      simp
    · rw [if_neg hconv, ← newtonSeq_succ, ih (k + 1)]
      rw [List.range_succ_eq_map,
        List.find?_cons_of_neg _ (by simpa using hconv), List.find?_map]
      have hpred : ((fun j => decide
            (|npvAt powFn cashFlows dates (newtonSeq powFn cashFlows dates (k + 1 + j))|
              < 1/10000)) : ℕ → Bool)
          = (fun j => decide
            (|npvAt powFn cashFlows dates (newtonSeq powFn cashFlows dates (k + j))|
              < 1/10000)) ∘ Nat.succ := by
        funext j
        simp only [Function.comp]
        rw [show k + 1 + j = k + Nat.succ j from by omega]
      rw [hpred]
      cases hf : List.find?
          ((fun j => decide
            (|npvAt powFn cashFlows dates (newtonSeq powFn cashFlows dates (k + j))|
              < 1/10000)) ∘ Nat.succ) (List.range fuel) with
      | none =>
        show newtonSeq powFn cashFlows dates (k + 1 + fuel) * 100
          = newtonSeq powFn cashFlows dates (k + (fuel + 1)) * 100
        rw [show k + 1 + fuel = k + (fuel + 1) from by omega]
      | some j =>
        show newtonSeq powFn cashFlows dates (k + 1 + j) * 100
          = newtonSeq powFn cashFlows dates (k + Nat.succ j) * 100
        rw [show k + 1 + j = k + Nat.succ j from by omega]

/-- C1: `calculateXIRR` (both service variants are verbatim identical)
implements exactly the claimed solver: for equal-length lists with at least
two cash flows it equals the Newton–Raphson model `xirrSpec` — initial
guess 0.10, update `rate -= NPV/dNPV`, return `rate * 100` at the first
iterate with `|NPV| < 1e-4`, hard cap of 100 iterations after which the
last computed rate times 100 is returned — and for fewer than two cash
flows it returns 0 (not an error). -/
theorem calculateXIRR_newton_spec (powFn : ℚ → ℚ → ℚ) (cashFlows dates : List ℚ) :
    (cashFlows.length = dates.length → 2 ≤ cashFlows.length →
      calculateXIRR powFn cashFlows dates = xirrSpec powFn cashFlows dates) ∧
    (cashFlows.length < 2 → calculateXIRR powFn cashFlows dates = 0) := by
  constructor
  · intro hlen h2
    unfold calculateXIRR
    rw [if_neg (by push_neg; exact ⟨hlen, h2⟩)]
    rw [show (1/10 : ℚ) = newtonSeq powFn cashFlows dates 0 from rfl,
      xirrGo_eq_spec powFn cashFlows dates 100 0]
    unfold xirrSpec
    have hpred : ((fun j => decide
          (|npvAt powFn cashFlows dates (newtonSeq powFn cashFlows dates (0 + j))|
            < 1/10000)) : ℕ → Bool)
        = fun k => decide
          (|npvAt powFn cashFlows dates (newtonSeq powFn cashFlows dates k)|
            < 1/10000) := by
      funext j
      rw [show 0 + j = j from by omega]
    rw [hpred]
    cases hf : List.find?
        (fun k => decide
          (|npvAt powFn cashFlows dates (newtonSeq powFn cashFlows dates k)|
            < 1/10000)) (List.range 100) with
    | none => rfl
    | some j =>
      show newtonSeq powFn cashFlows dates (0 + j) * 100
        = newtonSeq powFn cashFlows dates j * 100
      rw [Nat.zero_add]
  · intro h2
    unfold calculateXIRR
    rw [if_pos (Or.inr h2)]

/-- Concrete instance of `calculateXIRR_newton_spec`: the specification
example of a -1000 outflow at the origin and a 1210 inflow two years
(63072000000 ms) later, and a single-element guard case. -/
theorem calculateXIRR_newton_spec_witness :
    calculateXIRR (fun b e => b + e) [-1000, 1210] [0, 63072000000]
      = xirrSpec (fun b e => b + e) [-1000, 1210] [0, 63072000000] ∧
    calculateXIRR (fun b e => b + e) [5] [0] = 0 :=
  ⟨(calculateXIRR_newton_spec (fun b e => b + e) [-1000, 1210] [0, 63072000000]).1
      (by decide) (by decide),
    (calculateXIRR_newton_spec (fun b e => b + e) [5] [0]).2 (by decide)⟩

end MFCompare
